import Mathlib

/-!
Verification of the billing and ledger subsystem of a document-conversion
service (`document/models.py` and `document/views.py`).

Monetary amounts (Django `DecimalField` values, exact decimal arithmetic)
are embedded as rationals; integer counters as integers.
-/

namespace PdfConverter

/-- `ConversionPricing.PRICING_TYPE_CHOICES`: fixed, per_page, file_plus_pages. -/
inductive PricingType
  | fixed
  | per_page
  | file_plus_pages
deriving DecidableEq, Repr

/-- `Transaction.TRANSACTION_TYPES`. -/
inductive TransactionType
  | conversion
  | balance_add
  | refund
deriving DecidableEq, Repr

/-- `Transaction.PAYMENT_METHODS`. -/
inductive PaymentMethod
  | free_conversion
  | balance
  | credit_card
  | paypal
deriving DecidableEq, Repr

/-- The pricing-relevant fields of the `ConversionPricing` model
(`document/models.py`).  The `operation_type` key is handled separately as
the key of the pricing catalog. -/
structure ConversionPricing where
  pricing_type : PricingType
  base_price : ℚ
  price_per_page : ℚ
  free_pages : ℤ
  max_price_per_file : ℚ
  is_free_operation : Bool
  free_limit : ℤ
  minimum_charge : ℚ
deriving DecidableEq, Repr

/-- `ConversionPricing.calculate_cost` (`document/models.py` lines 182-202):
dispatch on `pricing_type` (the defensive `else` arm returns `base_price`,
unreachable for the closed enumeration), then apply the minimum charge and,
when `max_price_per_file > 0`, the price cap. -/
def ConversionPricing.calculate_cost (p : ConversionPricing) (page_count : ℤ) : ℚ :=
  let cost : ℚ :=
    match p.pricing_type with
    | .fixed => p.base_price
    | .per_page => p.price_per_page * page_count
    | .file_plus_pages =>
        let additional_pages : ℤ := max 0 (page_count - p.free_pages)
        p.base_price + (additional_pages * p.price_per_page)
  let cost := max cost p.minimum_charge
  if p.max_price_per_file > 0 then min cost p.max_price_per_file else cost

/-- The ledger fields of the `User` model: `balance` and `free_conversions`. -/
structure User where
  balance : ℚ
  free_conversions : ℤ
deriving DecidableEq, Repr

/-- `User.can_convert` (`document/models.py` lines 12-14). -/
def User.can_convert (u : User) : Bool :=
  u.free_conversions > 0 || u.balance > 0

/-- The ledger-relevant fields of a `Transaction` record
(`document/models.py` lines 235-273). -/
structure Transaction where
  transaction_type : TransactionType
  amount : ℚ
  payment_method : PaymentMethod
  balance_before : ℚ
  balance_after : ℚ
  free_conversions_before : ℤ
  free_conversions_after : ℤ
  is_successful : Bool
deriving DecidableEq, Repr

/-- Result of `User.use_conversion`: the returned `(success, transaction)`
pair together with the mutated user row. -/
structure ChargeResult where
  success : Bool
  transaction : Transaction
  user : User
deriving DecidableEq, Repr

/-- `User.use_conversion` (`document/models.py` lines 16-79), with the
pricing row already resolved (lookup/creation is modelled by
`resolve_pricing`).  Snapshots the before state, computes the cost, then
branches: free conversion, balance debit, or insufficient funds; records
the transaction with the after state read from the (possibly mutated) user. -/
def User.use_conversion (u : User) (pricing : ConversionPricing)
    (page_count : ℤ) : ChargeResult :=
  let balance_before := u.balance
  let free_conversions_before := u.free_conversions
  let calculated_cost := pricing.calculate_cost page_count
  let step : User × PaymentMethod × ℚ × Bool :=
    if u.free_conversions > 0 then
      ({ u with free_conversions := u.free_conversions - 1 },
        PaymentMethod.free_conversion, (0 : ℚ), true)
    else if u.balance ≥ calculated_cost then
      ({ u with balance := u.balance - calculated_cost },
        PaymentMethod.balance, calculated_cost, true)
    else
      (u, PaymentMethod.balance, calculated_cost, false)
  let u := step.1
  let payment_method := step.2.1
  let amount := step.2.2.1
  let success := step.2.2.2
  { success := success
    transaction :=
      { transaction_type := TransactionType.conversion
        amount := amount
        payment_method := payment_method
        balance_before := balance_before
        balance_after := u.balance
        free_conversions_before := free_conversions_before
        free_conversions_after := u.free_conversions
        is_successful := success }
    user := u }

/-- The default pricing row synthesized by `User.use_conversion` when no
`ConversionPricing` row exists for the operation type
(`document/models.py` lines 23-31): `base_price=0.50`,
`price_per_page=0.10`, `pricing_type=file_plus_pages`,
`minimum_charge=0.10`; the remaining fields take the model defaults
`free_pages=0`, `max_price_per_file=0.00`, `is_free_operation=False`,
`free_limit=0`. -/
def default_pricing : ConversionPricing :=
  { pricing_type := PricingType.file_plus_pages
    base_price := 1/2
    price_per_page := 1/10
    free_pages := 0
    max_price_per_file := 0
    is_free_operation := false
    free_limit := 0
    minimum_charge := 1/10 }

/-- The `try get / except create` pricing lookup of `User.use_conversion`
(`document/models.py` lines 21-31): the catalog, keyed by operation type,
returns the existing row or creates and persists `default_pricing`. -/
def resolve_pricing (catalog : List (String × ConversionPricing))
    (operation_type : String) :
    ConversionPricing × List (String × ConversionPricing) :=
  match catalog.lookup operation_type with
  | some p => (p, catalog)
  | none => (default_pricing, (operation_type, default_pricing) :: catalog)

/-- `add_balance_view` (`document/views.py` lines 328-356): the POST branch
adds `amount` to the balance unconditionally and records a `balance_add`
transaction (whose `is_successful` takes the model default `True`). -/
def add_balance (u : User) (amount : ℚ) : User × Transaction :=
  let balance_before := u.balance
  let u := { u with balance := u.balance + amount }
  (u,
    { transaction_type := TransactionType.balance_add
      amount := amount
      payment_method := PaymentMethod.credit_card
      balance_before := balance_before
      balance_after := u.balance
      free_conversions_before := u.free_conversions
      free_conversions_after := u.free_conversions
      is_successful := true })

/-- The per-page conversion cost law written the way the spec states it
(§4.1): basePrice if fixed; pricePerPage × n if per_page;
basePrice + pricePerPage × max(0, n − freePages) if file_plus_pages;
then raised to at least minimumCharge and, when maxPricePerFile > 0,
capped at maxPricePerFile.  Compared with `calculate_cost` in the
refinement theorem for C2. -/
def spec_cost (p : ConversionPricing) (n : ℤ) : ℚ :=
  let raw : ℚ :=
    match p.pricing_type with
    | .fixed => p.base_price
    | .per_page => p.price_per_page * n
    | .file_plus_pages => p.base_price + p.price_per_page * max 0 (n - p.free_pages)
  let raised := max raw p.minimum_charge
  if p.max_price_per_file > 0 then min raised p.max_price_per_file else raised

/-- Scenario D policy of the spec: `file_plus_pages`, basePrice 0.50,
pricePerPage 0.10, freePages 2, minimumCharge 0.10, no cap. -/
def scenario_d : ConversionPricing :=
  { pricing_type := PricingType.file_plus_pages
    base_price := 1/2
    price_per_page := 1/10
    free_pages := 2
    max_price_per_file := 0
    is_free_operation := false
    free_limit := 0
    minimum_charge := 1/10 }

/-- A fixed-price policy with basePrice 0.50 (Scenarios B and C of the
spec); the remaining fields take the model defaults. -/
def fixed_050 : ConversionPricing :=
  { pricing_type := PricingType.fixed
    base_price := 1/2
    price_per_page := 0
    free_pages := 0
    max_price_per_file := 0
    is_free_operation := false
    free_limit := 0
    minimum_charge := 1/10 }

/-- C1: `use_conversion` decides in order, first match winning: with
freeConversions > 0 it decrements freeConversions by 1, keeps the balance,
and returns method free_conversion, amount 0, success; otherwise with
balance ≥ cost it debits exactly the cost and returns method balance,
amount = cost, success; otherwise it mutates nothing and returns method
balance, amount = cost, failure. -/
theorem use_conversion_branches (u : User) (p : ConversionPricing) (n : ℤ) :
    (u.free_conversions > 0 →
      (u.use_conversion p n).user.free_conversions = u.free_conversions - 1 ∧
      (u.use_conversion p n).user.balance = u.balance ∧
      (u.use_conversion p n).transaction.payment_method = PaymentMethod.free_conversion ∧
      (u.use_conversion p n).transaction.amount = 0 ∧
      (u.use_conversion p n).success = true) ∧
    (¬ u.free_conversions > 0 → u.balance ≥ p.calculate_cost n →
      (u.use_conversion p n).user.balance = u.balance - p.calculate_cost n ∧
      (u.use_conversion p n).user.free_conversions = u.free_conversions ∧
      (u.use_conversion p n).transaction.payment_method = PaymentMethod.balance ∧
      (u.use_conversion p n).transaction.amount = p.calculate_cost n ∧
      (u.use_conversion p n).success = true) ∧
    (¬ u.free_conversions > 0 → ¬ u.balance ≥ p.calculate_cost n →
      (u.use_conversion p n).user = u ∧
      (u.use_conversion p n).transaction.payment_method = PaymentMethod.balance ∧
      (u.use_conversion p n).transaction.amount = p.calculate_cost n ∧
      (u.use_conversion p n).success = false) := by
  refine ⟨fun h1 => ?_, fun h1 h2 => ?_, fun h1 h2 => ?_⟩
  · simp [User.use_conversion, h1]
  · simp [User.use_conversion, h1, h2]
  · simp [User.use_conversion, h1, h2]

/-- `fixed_050` charges 0.50 for any page count. -/
theorem fixed_050_cost (n : ℤ) : fixed_050.calculate_cost n = 1/2 := by
  simp only [ConversionPricing.calculate_cost, fixed_050, max_def, min_def]
  norm_num

/-- Witness for C1 at a concrete account in each of the three branches. -/
theorem use_conversion_branches_witness :
    ((User.mk 0 3).free_conversions > 0 ∧
      ((User.mk 0 3).use_conversion default_pricing 1).success = true) ∧
    (¬ (User.mk 1 0).free_conversions > 0 ∧
      (User.mk 1 0).balance ≥ fixed_050.calculate_cost 1 ∧
      ((User.mk 1 0).use_conversion fixed_050 1).user.balance = 1 - fixed_050.calculate_cost 1) ∧
    (¬ (User.mk 0 0).free_conversions > 0 ∧
      ¬ (User.mk 0 0).balance ≥ fixed_050.calculate_cost 1 ∧
      ((User.mk 0 0).use_conversion fixed_050 1).success = false) :=
  ⟨⟨by decide,
      ((use_conversion_branches (User.mk 0 3) default_pricing 1).1 (by decide)).2.2.2.2⟩,
    ⟨by decide, by rw [fixed_050_cost]; norm_num,
      ((use_conversion_branches (User.mk 1 0) fixed_050 1).2.1 (by decide)
        (by rw [fixed_050_cost]; norm_num)).1⟩,
    ⟨by decide, by rw [fixed_050_cost]; norm_num,
      ((use_conversion_branches (User.mk 0 0) fixed_050 1).2.2 (by decide)
        (by rw [fixed_050_cost]; norm_num)).2.2.2⟩⟩

/-- C2: `calculate_cost` equals the spec's pricing law (base price if
fixed, per-page times pages if per_page, base plus per-page beyond the
free pages if file_plus_pages, raised to the minimum charge and capped by
a positive maxPricePerFile); and the Scenario D policy at 5 pages costs
0.80. -/
theorem calculate_cost_matches_spec :
    (∀ (p : ConversionPricing) (n : ℤ), p.calculate_cost n = spec_cost p n) ∧
    scenario_d.calculate_cost 5 = 4/5 := by
  constructor
  · intro p n
    cases hp : p.pricing_type <;>
      simp [ConversionPricing.calculate_cost, spec_cost, hp, mul_comm]
  · simp only [ConversionPricing.calculate_cost, scenario_d, max_def, min_def]
    norm_num

/-- C4: with no free conversions left and a balance strictly below the
computed cost, `use_conversion` fails, mutates neither field, and still
records an unsuccessful transaction carrying the would-be charge. -/
theorem insufficient_funds_no_mutation (u : User) (p : ConversionPricing) (n : ℤ)
    (h0 : u.free_conversions = 0) (hlt : u.balance < p.calculate_cost n) :
    (u.use_conversion p n).success = false ∧
    (u.use_conversion p n).user = u ∧
    (u.use_conversion p n).transaction.is_successful = false ∧
    (u.use_conversion p n).transaction.amount = p.calculate_cost n := by
  have h1 : ¬ u.free_conversions > 0 := by omega
  have h2 : ¬ u.balance ≥ p.calculate_cost n := not_le.mpr hlt
  simp [User.use_conversion, h1, h2]

/-- Witness for C4, Scenario C of the spec: a 0.50 fixed-price charge
drains a 0.50 balance to 0.00, and the identical next charge fails with
the balance unchanged at 0.00 and an unsuccessful transaction recorded. -/
theorem insufficient_funds_no_mutation_witness :
    ((User.mk (1/2) 0).use_conversion fixed_050 1).success = true ∧
    ((User.mk (1/2) 0).use_conversion fixed_050 1).user = User.mk 0 0 ∧
    (User.mk 0 0).free_conversions = 0 ∧
    (User.mk 0 0).balance < fixed_050.calculate_cost 1 ∧
    ((User.mk 0 0).use_conversion fixed_050 1).success = false ∧
    ((User.mk 0 0).use_conversion fixed_050 1).user = User.mk 0 0 ∧
    ((User.mk 0 0).use_conversion fixed_050 1).transaction.is_successful = false :=
  have hdrain : ((User.mk (1/2) 0).use_conversion fixed_050 1).user = User.mk 0 0 := by
    norm_num [User.use_conversion, fixed_050_cost]
  have hfail := insufficient_funds_no_mutation (User.mk 0 0) fixed_050 1 (by decide)
    (by rw [fixed_050_cost]; norm_num)
  ⟨by norm_num [User.use_conversion, fixed_050_cost], hdrain, by decide,
    by rw [fixed_050_cost]; norm_num, hfail.1, hfail.2.1, hfail.2.2.1⟩

/-- C5: starting from non-negative balance and free-conversion count, and
a non-negative computed cost, `use_conversion` leaves both fields
non-negative. -/
theorem use_conversion_nonneg (u : User) (p : ConversionPricing) (n : ℤ)
    (hb : 0 ≤ u.balance) (hf : 0 ≤ u.free_conversions)
    (hc : 0 ≤ p.calculate_cost n) :
    0 ≤ (u.use_conversion p n).user.balance ∧
    0 ≤ (u.use_conversion p n).user.free_conversions := by
  by_cases h1 : u.free_conversions > 0
  · constructor
    · simpa [User.use_conversion, h1] using hb
    · simp [User.use_conversion, h1]
      omega
  · by_cases h2 : u.balance ≥ p.calculate_cost n
    · constructor
      · simp [User.use_conversion, h1, h2]
      · simpa [User.use_conversion, h1, h2] using hf
    · constructor
      · simpa [User.use_conversion, h1, h2] using hb
      · simpa [User.use_conversion, h1, h2] using hf

/-- Witness for C5 at a concrete account and the default policy. -/
theorem use_conversion_nonneg_witness :
    (0 ≤ (User.mk 1 2).balance ∧ 0 ≤ (User.mk 1 2).free_conversions ∧
      0 ≤ default_pricing.calculate_cost 1) ∧
    0 ≤ ((User.mk 1 2).use_conversion default_pricing 1).user.balance ∧
    0 ≤ ((User.mk 1 2).use_conversion default_pricing 1).user.free_conversions :=
  have hc : 0 ≤ default_pricing.calculate_cost 1 := by
    simp only [ConversionPricing.calculate_cost, default_pricing, max_def, min_def]
    norm_num
  ⟨⟨by norm_num, by decide, hc⟩,
    use_conversion_nonneg (User.mk 1 2) default_pricing 1 (by norm_num) (by decide) hc⟩

/-- C6: every transaction records coherent before/after arithmetic: a
successful balance-method debit has balanceAfter = balanceBefore − amount;
a free-conversion or unsuccessful debit leaves balanceAfter =
balanceBefore; a balance_add credit has balanceAfter = balanceBefore +
amount. -/
theorem transaction_snapshot_arithmetic :
    (∀ (u : User) (p : ConversionPricing) (n : ℤ),
      ((u.use_conversion p n).transaction.payment_method = PaymentMethod.balance ∧
          (u.use_conversion p n).transaction.is_successful = true →
        (u.use_conversion p n).transaction.balance_after =
          (u.use_conversion p n).transaction.balance_before -
            (u.use_conversion p n).transaction.amount) ∧
      ((u.use_conversion p n).transaction.payment_method = PaymentMethod.free_conversion ∨
          (u.use_conversion p n).transaction.is_successful = false →
        (u.use_conversion p n).transaction.balance_after =
          (u.use_conversion p n).transaction.balance_before)) ∧
    (∀ (u : User) (a : ℚ),
      (add_balance u a).2.balance_after = (add_balance u a).2.balance_before + a) := by
  refine ⟨fun u p n => ?_, fun u a => by simp [add_balance]⟩
  by_cases h1 : u.free_conversions > 0
  · constructor <;> simp [User.use_conversion, h1]
  · by_cases h2 : u.balance ≥ p.calculate_cost n
    · constructor <;> simp [User.use_conversion, h1, h2]
    · constructor <;> simp [User.use_conversion, h1, h2]

/-- Witness for C6 at concrete transactions of each shape. -/
theorem transaction_snapshot_arithmetic_witness :
    (((User.mk 1 0).use_conversion fixed_050 1).transaction.payment_method =
        PaymentMethod.balance ∧
      ((User.mk 1 0).use_conversion fixed_050 1).transaction.is_successful = true ∧
      ((User.mk 1 0).use_conversion fixed_050 1).transaction.balance_after =
        ((User.mk 1 0).use_conversion fixed_050 1).transaction.balance_before -
          ((User.mk 1 0).use_conversion fixed_050 1).transaction.amount) ∧
    (add_balance (User.mk 2 0) 5).2.balance_after =
      (add_balance (User.mk 2 0) 5).2.balance_before + 5 :=
  have hm : ((User.mk 1 0).use_conversion fixed_050 1).transaction.payment_method =
      PaymentMethod.balance := by
    norm_num [User.use_conversion, fixed_050_cost]
  have hs : ((User.mk 1 0).use_conversion fixed_050 1).transaction.is_successful = true := by
    norm_num [User.use_conversion, fixed_050_cost]
  ⟨⟨hm, hs,
      (transaction_snapshot_arithmetic.1 (User.mk 1 0) fixed_050 1).1 ⟨hm, hs⟩⟩,
    transaction_snapshot_arithmetic.2 (User.mk 2 0) 5⟩

/-- A ledger-affecting call: a conversion charge (`User.use_conversion`
with a resolved pricing row and page count) or a balance top-up
(`add_balance_view`). -/
inductive Op
  | charge (pricing : ConversionPricing) (page_count : ℤ)
  | credit (amount : ℚ)

/-- Apply one ledger call to an account, yielding the mutated account and
the transaction it records. -/
def stepOp (u : User) : Op → User × Transaction
  | Op.charge p n =>
      let r := u.use_conversion p n
      (r.user, r.transaction)
  | Op.credit a => add_balance u a

/-- Run a sequence of ledger calls from an account, collecting the
transaction log in call order. -/
def run (u : User) : List Op → User × List Transaction
  | [] => (u, [])
  | op :: ops =>
      let s := stepOp u op
      let r := run s.1 ops
      (r.1, s.2 :: r.2)

/-- Sum of the amounts of the `balance_add` transactions in a log. -/
def balance_add_total : List Transaction → ℚ
  | [] => 0
  | t :: ts =>
      (if t.transaction_type = TransactionType.balance_add then t.amount else 0) +
        balance_add_total ts

/-- Sum of the amounts of the successful balance-method transactions in a
log. -/
def balance_spend_total : List Transaction → ℚ
  | [] => 0
  | t :: ts =>
      (if t.payment_method = PaymentMethod.balance ∧ t.is_successful = true
        then t.amount else 0) + balance_spend_total ts

/-- Count of the successful free-conversion transactions in a log. -/
def free_spend_count : List Transaction → ℤ
  | [] => 0
  | t :: ts =>
      (if t.payment_method = PaymentMethod.free_conversion ∧ t.is_successful = true
        then 1 else 0) + free_spend_count ts

/-- One ledger call moves the balance by exactly the net of its recorded
transaction: plus the amount for a `balance_add`, minus the amount for a
successful balance-method debit; and moves the free-conversion count down
by one exactly when the transaction is a successful free conversion. -/
theorem stepOp_ledger_delta (u : User) (op : Op) :
    (stepOp u op).1.balance = u.balance
      + (if (stepOp u op).2.transaction_type = TransactionType.balance_add
          then (stepOp u op).2.amount else 0)
      - (if (stepOp u op).2.payment_method = PaymentMethod.balance ∧
              (stepOp u op).2.is_successful = true
          then (stepOp u op).2.amount else 0) ∧
    (stepOp u op).1.free_conversions = u.free_conversions
      - (if (stepOp u op).2.payment_method = PaymentMethod.free_conversion ∧
              (stepOp u op).2.is_successful = true
          then 1 else 0) := by
  cases op with
  | credit a => simp [stepOp, add_balance]
  | charge p n =>
      by_cases h1 : u.free_conversions > 0
      · simp [stepOp, User.use_conversion, h1]
      · by_cases h2 : u.balance ≥ p.calculate_cost n
        · simp [stepOp, User.use_conversion, h1, h2]
        · simp [stepOp, User.use_conversion, h1, h2]

/-- The ledger state after any run is the left-fold of the recorded log
over the starting state: the balance moves by credits minus successful
balance debits, the free-conversion count by the successful free
conversions. -/
theorem run_ledger_fold (u : User) (ops : List Op) :
    (run u ops).1.balance =
      u.balance + balance_add_total (run u ops).2 - balance_spend_total (run u ops).2 ∧
    (run u ops).1.free_conversions =
      u.free_conversions - free_spend_count (run u ops).2 := by
  induction ops generalizing u with
  | nil => simp [run, balance_add_total, balance_spend_total, free_spend_count]
  | cons op ops ih =>
      obtain ⟨hb, hf⟩ := ih (stepOp u op).1
      obtain ⟨sb, sf⟩ := stepOp_ledger_delta u op
      constructor
      · simp only [run, balance_add_total, balance_spend_total, hb, sb]
        ring
      · simp only [run, free_spend_count, hf, sf]
        ring

/-- C3: from a fresh account (zero balance, an initial free-conversion
grant), after any sequence of charges and credits the balance equals the
sum of `balance_add` amounts minus the sum of successful balance-method
debit amounts, and the free-conversion count equals the grant minus the
number of successful free conversions — the ledger state is the fold of
the transaction log. -/
theorem fresh_account_ledger_reconstruction (grant : ℤ) (ops : List Op) :
    (run (User.mk 0 grant) ops).1.balance =
      balance_add_total (run (User.mk 0 grant) ops).2 -
        balance_spend_total (run (User.mk 0 grant) ops).2 ∧
    (run (User.mk 0 grant) ops).1.free_conversions =
      grant - free_spend_count (run (User.mk 0 grant) ops).2 := by
  have h := run_ledger_fold (User.mk 0 grant) ops
  simpa using h

/-- C7 counterexample: a credit of −3 against a balance of 5 is not
rejected — the balance mutates to 2, so "negative or zero amounts are
rejected before any mutation" is false in the code. -/
theorem add_balance_negative_not_rejected :
    (-3 : ℚ) < 0 ∧
    (add_balance (User.mk 5 0) (-3)).1.balance ≠ 5 ∧
    (add_balance (User.mk 5 0) (-3)).1.balance = 2 := by
  refine ⟨by norm_num, ?_, ?_⟩
  · simp [add_balance]
  · simp [add_balance]
    norm_num

/-- C7 amended: `add_balance` performs no validation at all — any amount,
positive, zero or negative, is added to the balance unconditionally, the
free-conversion count is untouched, and the recorded `balance_add`
transaction always carries `is_successful = true` and the given amount. -/
theorem add_balance_unconditional (u : User) (a : ℚ) :
    (add_balance u a).1.balance = u.balance + a ∧
    (add_balance u a).1.free_conversions = u.free_conversions ∧
    (add_balance u a).2.is_successful = true ∧
    (add_balance u a).2.amount = a := by
  simp [add_balance]

/-- C8 counterexample: for an operation type with no pricing row, the
synthesized default's minimum charge (0.10) does not equal its base price
(0.50), so "minimum charge equal to base price" is false. -/
theorem default_pricing_minimum_ne_base :
    ([] : List (String × ConversionPricing)).lookup "ocr" = none ∧
    (resolve_pricing [] "ocr").1.minimum_charge ≠ (resolve_pricing [] "ocr").1.base_price := by
  constructor
  · rfl
  · simp [resolve_pricing, default_pricing]

/-- C8 amended: a lookup miss synthesizes and persists the default policy
instead of failing; the default has base price 0.50, per-page increment
0.10, and its minimum charge (0.10) equals the per-page increment, not the
base price. -/
theorem resolve_pricing_creates_default
    (catalog : List (String × ConversionPricing)) (op : String)
    (h : catalog.lookup op = none) :
    (resolve_pricing catalog op).1 = default_pricing ∧
    ((resolve_pricing catalog op).2).lookup op = some default_pricing ∧
    default_pricing.base_price = 1/2 ∧
    default_pricing.price_per_page = 1/10 ∧
    default_pricing.minimum_charge = default_pricing.price_per_page ∧
    default_pricing.minimum_charge ≠ default_pricing.base_price := by
  refine ⟨?_, ?_, rfl, rfl, rfl, by simp [default_pricing]⟩
  · simp [resolve_pricing, h]
  · simp [resolve_pricing, h, List.lookup]

/-- Witness for C8 amended at the empty catalog. -/
theorem resolve_pricing_creates_default_witness :
    ([] : List (String × ConversionPricing)).lookup "merge" = none ∧
    (resolve_pricing [] "merge").1 = default_pricing ∧
    ((resolve_pricing [] "merge").2).lookup "merge" = some default_pricing :=
  have h := resolve_pricing_creates_default [] "merge" rfl
  ⟨rfl, h.1, h.2.1⟩

/-- C9 counterexample: a free-conversion charge under the Scenario D
policy, whose computed cost is 0.80, produces a transaction whose every
field is listed here — the amount is 0 and the 0.80 cost is recorded
nowhere on it, so "the computed cost is still recorded on the resulting
Transaction" is false. -/
theorem free_conversion_cost_discarded :
    scenario_d.calculate_cost 5 = 4/5 ∧
    ((User.mk 0 3).use_conversion scenario_d 5).transaction =
      { transaction_type := TransactionType.conversion
        amount := 0
        payment_method := PaymentMethod.free_conversion
        balance_before := 0
        balance_after := 0
        free_conversions_before := 3
        free_conversions_after := 2
        is_successful := true } := by
  constructor
  · simp only [ConversionPricing.calculate_cost, scenario_d, max_def, min_def]
    norm_num
  · simp [User.use_conversion]

/-- C9 amended: when a charge is paid by a free conversion, the computed
cost is ignored for charging (amountCharged = 0) and is not recorded on
the transaction either — the transaction's amount field is 0 and the
balance snapshots are unchanged. -/
theorem free_conversion_ignores_cost (u : User) (p : ConversionPricing) (n : ℤ)
    (h : u.free_conversions > 0) :
    (u.use_conversion p n).transaction.amount = 0 ∧
    (u.use_conversion p n).transaction.balance_after =
      (u.use_conversion p n).transaction.balance_before ∧
    (u.use_conversion p n).user.balance = u.balance ∧
    (u.use_conversion p n).success = true := by
  simp [User.use_conversion, h]

/-- Witness for C9 amended at a concrete free-conversion charge. -/
theorem free_conversion_ignores_cost_witness :
    (User.mk 0 3).free_conversions > 0 ∧
    ((User.mk 0 3).use_conversion scenario_d 5).transaction.amount = 0 :=
  ⟨by decide, (free_conversion_ignores_cost (User.mk 0 3) scenario_d 5 (by decide)).1⟩

/-- C10: neither `calculate_cost` nor `use_conversion` reads a policy's
`is_free_operation` or `free_limit` field: two policies agreeing on the
six pricing fields produce identical charges and identical charge
outcomes on every account, whatever their free-operation marking. -/
theorem pricing_free_fields_noninterference (p1 p2 : ConversionPricing)
    (ht : p1.pricing_type = p2.pricing_type)
    (hb : p1.base_price = p2.base_price)
    (hp : p1.price_per_page = p2.price_per_page)
    (hf : p1.free_pages = p2.free_pages)
    (hm : p1.minimum_charge = p2.minimum_charge)
    (hx : p1.max_price_per_file = p2.max_price_per_file) :
    (∀ n : ℤ, p1.calculate_cost n = p2.calculate_cost n) ∧
    (∀ (u : User) (n : ℤ), u.use_conversion p1 n = u.use_conversion p2 n) := by
  have hcost : ∀ n : ℤ, p1.calculate_cost n = p2.calculate_cost n := by
    intro n
    simp only [ConversionPricing.calculate_cost, ht, hb, hp, hf, hm, hx]
  refine ⟨hcost, fun u n => ?_⟩
  simp only [User.use_conversion, hcost n]

/-- Witness for C10: the default policy and its free-marked variant charge
identically. -/
theorem pricing_free_fields_noninterference_witness :
    ({ default_pricing with is_free_operation := true, free_limit := 5 } :
        ConversionPricing).is_free_operation ≠ default_pricing.is_free_operation ∧
    (∀ n : ℤ, default_pricing.calculate_cost n =
      ({ default_pricing with is_free_operation := true, free_limit := 5 } :
        ConversionPricing).calculate_cost n) ∧
    (User.mk 1 0).use_conversion default_pricing 7 =
      (User.mk 1 0).use_conversion
        { default_pricing with is_free_operation := true, free_limit := 5 } 7 :=
  have h := pricing_free_fields_noninterference default_pricing
    { default_pricing with is_free_operation := true, free_limit := 5 }
    rfl rfl rfl rfl rfl rfl
  ⟨by decide, h.1, h.2 (User.mk 1 0) 7⟩

end PdfConverter
